import Mathlib

/-!
Shallow embedding of the authentication & authorization core of the
Ontair/admin_panel Go repository: the JWT token service
(internal/adapters/secondary/jwt/jwt.go), the auth service
(internal/core/services/auth_service.go), the cookie service
(internal/adapters/secondary/cookie/cookie.go) and the request
authentication middleware (the `middleware` package).

Conventions of the embedding:
* Go `time.Time` instants are modelled as `Int` unix seconds.
* Go strings are Lean `String`s; Go's `len` on a string counts UTF-8
  bytes, which is `String.utf8ByteSize` in Lean (`goLen` below).
* A signed JWT string is modelled as a `SignedToken`: the claim set it
  carries, the algorithm declared in its header, and the key material it
  was MACed with.  Signature verification against a secret succeeds
  exactly when the stored key equals that secret (a standard symbolic
  model of an unforgeable MAC).
* The repository pins github.com/golang-jwt/jwt/v5.  In v5,
  `jwt.Parse` wraps claim-validation failures: the error string for an
  expired token is "token has invalid claims: token is expired"
  (ErrTokenInvalidClaims joined with ErrTokenExpired), and a bad
  signature yields "token signature is invalid: signature is invalid".
  The error strings produced below follow the v5 library, since the
  middleware compares them literally.
* bcrypt hashing is opaque and salted; it is modelled by an injective
  tagged function `bcryptHash`, and password verification in `Login` is
  parameterised by an arbitrary verifier `verify : String → String →
  Bool` so theorems quantify over all hash behaviours.
-/

namespace AdminPanel

/-- Go `len` on a string: the number of UTF-8 bytes. -/
def goLen (s : String) : Nat := s.utf8ByteSize

/-- entities.Role is a string type; the four named roles are constants. -/
abbrev Role := String

def RoleAdmin : Role := "admin"
def RoleManager : Role := "manager"
def RoleUser : Role := "user"
def RoleGuest : Role := "guest"

/-- entities.User: the fields the auth core reads and writes.
`password` holds the bcrypt hash, as in the Go entity. -/
structure User where
  id : Nat
  username : String
  password : String
  firstName : String
  lastName : String
  role : Role
  isActive : Bool
  deriving Repr, DecidableEq

/-- Domain errors from internal/core/entities (errors.go). -/
inductive DomainError where
  | userNotFound
  | userAlreadyExists
  | invalidCredentials
  | invalidUsername
  | passwordTooShort
  | invalidToken
  | userDeactivated
  | other (msg : String)
  deriving Repr, DecidableEq

/-- JWT configuration (internal/infra/config JWTConfig): secrets and
expiries; `accessExpiry`/`refreshExpiry` are minutes (Go `int`). -/
structure JWTConfig where
  secretKey : String
  refreshSecret : String
  accessExpiry : Int
  refreshExpiry : Int
  deriving Repr, DecidableEq

/-- Declared signing algorithm of a token's header.  The keyfunc in
`parseToken` accepts exactly the HMAC family. -/
inductive Alg where
  | HS256
  | nonHMAC (name : String)
  deriving Repr, DecidableEq

def Alg.isHMAC : Alg → Bool
  | .HS256 => true
  | .nonHMAC _ => false

/-- The claim set of a parsed token, as the dynamic `jwt.MapClaims`
map: each application claim is `none` when absent or of the wrong
dynamic type (Go's two-valued type assertion).  `user_id` is a JSON
number (float64 in Go, truncated to uint by callers). -/
structure MapClaims where
  user_id : Option Nat
  username : Option String
  role : Option String
  typ : Option String
  exp : Option Int
  nbf : Option Int
  iat : Option Int
  deriving Repr, DecidableEq

/-- A signed compact JWT: declared algorithm, claims, and the key the
MAC was computed with. -/
structure SignedToken where
  alg : Alg
  claims : MapClaims
  secret : String
  deriving Repr, DecidableEq

/-- jwt.go GenerateAccessToken: claims with type "access", expiry
`now + accessExpiry` minutes, not-before and issued-at `now`, signed
HS256 with the access secret. -/
def GenerateAccessToken (cfg : JWTConfig) (now : Int) (user : User) : SignedToken :=
  { alg := .HS256
    claims :=
      { user_id := some user.id
        username := some user.username
        role := some user.role
        typ := some "access"
        exp := some (now + cfg.accessExpiry * 60)
        nbf := some now
        iat := some now }
    secret := cfg.secretKey }

/-- jwt.go GenerateRefreshToken: type "refresh", expiry
`now + refreshExpiry` minutes, signed with the refresh secret. -/
def GenerateRefreshToken (cfg : JWTConfig) (now : Int) (user : User) : SignedToken :=
  { alg := .HS256
    claims :=
      { user_id := some user.id
        username := some user.username
        role := some user.role
        typ := some "refresh"
        exp := some (now + cfg.refreshExpiry * 60)
        nbf := some now
        iat := some now }
    secret := cfg.refreshSecret }

/-- golang-jwt/v5 claim validation (Validator.Validate with MapClaims):
expiry fails when the current instant is not before `exp`; not-before
fails when the current instant is before `nbf`; absent claims are not
required.  Failures are joined with ", ". -/
def validateClaims (claims : MapClaims) (now : Int) : Option String :=
  let expErr : List String :=
    match claims.exp with
    | some e => if e ≤ now then ["token is expired"] else []
    | none => []
  let nbfErr : List String :=
    match claims.nbf with
    | some n => if now < n then ["token is not valid yet"] else []
    | none => []
  match expErr ++ nbfErr with
  | [] => none
  | errs => some (String.intercalate ", " errs)

/-- golang-jwt/v5 `jwt.Parse` with the keyfunc of jwt.go parseToken:
reject non-HMAC algorithms (keyfunc error), verify the MAC against
`secret`, then validate registered claims; v5 prefixes the wrapped
sentinel error texts. -/
def jwtParse (tok : SignedToken) (secret : String) (now : Int) :
    Except String MapClaims :=
  if ¬ tok.alg.isHMAC then
    .error "token is unverifiable: error while executing keyfunc: unexpected signing method"
  else if tok.secret ≠ secret then
    .error "token signature is invalid: signature is invalid"
  else
    match validateClaims tok.claims now with
    | some msg => .error ("token has invalid claims: " ++ msg)
    | none => .ok tok.claims

/-- jwt.go parseToken: `jwt.Parse` with the given secret, then the
token-type check on the `type` claim (a missing or non-string claim
reads as the empty string via the two-valued type assertion). -/
def parseToken (tok : SignedToken) (secret : String) (expectedType : String)
    (now : Int) : Except String MapClaims :=
  match jwtParse tok secret now with
  | .error e => .error e
  | .ok claims =>
    let tokenType := claims.typ.getD ""
    if claims.typ.isSome ∧ tokenType = expectedType then .ok claims
    else .error ("invalid token type: expected " ++ expectedType ++ ", got " ++ tokenType)

/-- jwt.go ParseAccessToken: parse with the access secret expecting
type "access". -/
def ParseAccessToken (cfg : JWTConfig) (tok : SignedToken) (now : Int) :
    Except String MapClaims :=
  parseToken tok cfg.secretKey "access" now

/-- jwt.go ParseRefreshToken: parse with the refresh secret expecting
type "refresh". -/
def ParseRefreshToken (cfg : JWTConfig) (tok : SignedToken) (now : Int) :
    Except String MapClaims :=
  parseToken tok cfg.refreshSecret "refresh" now

/-- service.UserInfo: user information extracted from a token. -/
structure UserInfo where
  userID : Nat
  username : String
  role : String
  deriving Repr, DecidableEq

/-- jwt.go ExtractUserFromToken: type-checked extraction of user_id,
username and role from the dynamic claims map. -/
def ExtractUserFromToken (claims : MapClaims) : Except String UserInfo :=
  match claims.user_id with
  | none => .error "invalid user_id in token"
  | some uid =>
    match claims.username with
    | none => .error "invalid username in token"
    | some uname =>
      match claims.role with
      | none => .error "invalid role in token"
      | some role => .ok { userID := uid, username := uname, role := role }

/-- jwt.go GetAccessTokenExpiry: the configured access expiry in
minutes. -/
def GetAccessTokenExpiry (cfg : JWTConfig) : Int :=
  cfg.accessExpiry

/-! ## Credential store and auth service -/

/-- The user repository is its list of rows; GetByUsername /
GetByID are first-match lookups, a miss being the store's
record-not-found error. -/
abbrev UserStore := List User

def getByUsername (store : UserStore) (username : String) : Option User :=
  store.find? (fun u => u.username = username)

def getByID (store : UserStore) (id : Nat) : Option User :=
  store.find? (fun u => u.id = id)

/-- entities.User.VerifyPassword compares the supplied password with
the stored bcrypt hash.  The verifier is a parameter of the embedding
so results hold for every hash behaviour. -/
abbrev PasswordVerifier := String → String → Bool

/-- bcrypt.GenerateFromPassword, modelled as an injective tagged
function; real bcrypt digests are 60 bytes, so like them this model's
output always has at least 8 bytes. -/
def bcryptHash (password : String) : String :=
  "bcrypt$2a$10$" ++ password

/-- service.LoginResponse: the token pair, the user, and `expires_in`
(an `int`, minutes). -/
structure LoginResponse where
  accessToken : SignedToken
  refreshToken : SignedToken
  user : User
  expiresIn : Int
  deriving Repr, DecidableEq

/-- auth_service.go Login: reject empty username/password, look up the
user by username (miss collapsed to invalid credentials), reject an
inactive account, verify the password, then issue both tokens and
return `ExpiresIn: 15` (a literal in the source). -/
def Login (verify : PasswordVerifier) (store : UserStore) (cfg : JWTConfig)
    (now : Int) (username password : String) : Except DomainError LoginResponse :=
  if username = "" ∨ password = "" then .error .invalidCredentials
  else
    match getByUsername store username with
    | none => .error .invalidCredentials
    | some user =>
      if ¬ user.isActive then .error .userDeactivated
      else if ¬ verify user.password password then .error .invalidCredentials
      else
        .ok { accessToken := GenerateAccessToken cfg now user
              refreshToken := GenerateRefreshToken cfg now user
              user := user
              expiresIn := 15 }

/-- service.RegisterRequest. -/
structure RegisterRequest where
  username : String
  password : String
  firstName : String
  lastName : String
  role : Role
  deriving Repr, DecidableEq

/-- auth_service.go validateRegistrationRequest: username at least 3
bytes, password at least 8 bytes (Go `len`). -/
def validateRegistrationRequest (req : RegisterRequest) : Option DomainError :=
  if req.username = "" ∨ goLen req.username < 3 then some .invalidUsername
  else if req.password = "" ∨ goLen req.password < 8 then some .passwordTooShort
  else none

/-- auth_service.go getDefaultRole: keep a recognised role, default
everything else (including the empty role) to `user`. -/
def getDefaultRole (role : Role) : Role :=
  if role = "" then RoleUser
  else if role = RoleAdmin ∨ role = RoleManager ∨ role = RoleUser ∨ role = RoleGuest then role
  else RoleUser

/-- entities.User.Validate: non-empty username and a stored password
(hash) of at least 8 bytes. -/
def userValidate (u : User) : Option DomainError :=
  if u.username = "" then some .invalidUsername
  else if goLen u.password < 8 then some .passwordTooShort
  else none

/-- auth_service.go Register: validate the request, reject an existing
username, build the user with the defaulted role and hashed password,
run the entity validation, and persist.  Returns the created user and
the updated store. -/
def Register (store : UserStore) (req : RegisterRequest)
    (nextId : Nat) : Except DomainError (User × UserStore) :=
  match validateRegistrationRequest req with
  | some e => .error e
  | none =>
    match getByUsername store req.username with
    | some _ => .error .userAlreadyExists
    | none =>
      let user : User :=
        { id := nextId
          username := req.username
          password := bcryptHash req.password
          firstName := req.firstName
          lastName := req.lastName
          role := getDefaultRole req.role
          isActive := true }
      match userValidate user with
      | some e => .error e
      | none => .ok (user, store ++ [user])

/-- auth_service.go RefreshToken: validate as a refresh-class token,
read `user_id` from the dynamic claims, re-fetch the user, reject an
inactive account, then issue a fresh pair with `ExpiresIn: 15`. -/
def RefreshToken (store : UserStore) (cfg : JWTConfig) (now : Int)
    (refreshTok : SignedToken) : Except DomainError LoginResponse :=
  match ParseRefreshToken cfg refreshTok now with
  | .error _ => .error .invalidToken
  | .ok claims =>
    match claims.user_id with
    | none => .error .invalidToken
    | some uid =>
      match getByID store uid with
      | none => .error .userNotFound
      | some user =>
        if ¬ user.isActive then .error .userDeactivated
        else
          .ok { accessToken := GenerateAccessToken cfg now user
                refreshToken := GenerateRefreshToken cfg now user
                user := user
                expiresIn := 15 }

/-- auth_service.go ValidateToken: validate as an access-class token,
read `user_id`, re-fetch the user, reject an inactive account. -/
def ValidateToken (store : UserStore) (cfg : JWTConfig) (now : Int)
    (tok : SignedToken) : Except DomainError User :=
  match ParseAccessToken cfg tok now with
  | .error _ => .error .invalidToken
  | .ok claims =>
    match claims.user_id with
    | none => .error .invalidToken
    | some uid =>
      match getByID store uid with
      | none => .error .userNotFound
      | some user =>
        if ¬ user.isActive then .error .userDeactivated
        else .ok user

/-! ## Cookie service and middleware token extraction (string level) -/

/-- The transport-level view of a request: the Authorization header
(Go's GetHeader returns "" when absent) and the two auth cookies
(absent cookies are a lookup error in Go). -/
structure RequestCtx where
  authHeader : String
  accessCookie : Option String
  refreshCookie : Option String
  deriving Repr, DecidableEq

/-- Go strings.SplitN(s, " ", 2) on the character list: the part before
the first space, and the rest when a space occurs. -/
def breakAtSpace : List Char → List Char × Option (List Char)
  | [] => ([], none)
  | c :: cs =>
    if c = ' ' then ([], some cs)
    else
      let r := breakAtSpace cs
      (c :: r.1, r.2)

/-- The middleware's header parse: SplitN(header, " ", 2) yielding two
parts with the first equal to "Bearer". -/
def bearerFromHeader (h : String) : Option String :=
  if h = "" then none
  else
    match breakAtSpace h.toList with
    | (p0, some rest) =>
      if String.mk p0 = "Bearer" then some (String.mk rest) else none
    | (_, none) => none

/-- cookie.go GetTokenFromRequest: the access-token cookie first, then
the Authorization header with an explicit `"Bearer "` byte-prefix
check (`len > 7` and `[:7] == "Bearer "`). -/
def GetTokenFromRequest (r : RequestCtx) : Except String String :=
  match r.accessCookie with
  | some t => .ok t
  | none =>
    if r.authHeader = "" then .error "no token found in request"
    else if 7 < goLen r.authHeader ∧ r.authHeader.toList.take 7 = "Bearer ".toList then
      .ok (String.mk (r.authHeader.toList.drop 7))
    else .error "invalid authorization header format"

/-- middleware extractToken: a well-formed bearer Authorization header
wins; otherwise the cookie service's token, provided it is non-empty;
otherwise the "no token found" error. -/
def extractToken (r : RequestCtx) : Except String String :=
  match bearerFromHeader r.authHeader with
  | some tok => .ok tok
  | none =>
    match GetTokenFromRequest r with
    | .ok tok => if tok ≠ "" then .ok tok else .error "no token found"
    | .error _ => .error "no token found"

/-! ## RequireAuth middleware (token level) -/

/-- The middleware pipeline after extraction: the access credential the
request carried (`none` when extraction failed) and the refresh-token
cookie, both as signed tokens. -/
structure AuthRequest where
  token : Option SignedToken
  refreshCookie : Option SignedToken
  deriving Repr, DecidableEq

/-- Outcome of a middleware gate on one request: the HTTP status (200
standing for proceed-to-handler), the identity attached to the request
context, and the token pair written back to the cookies, if any. -/
structure MwResult where
  status : Nat
  identity : Option UserInfo
  cookiesSet : Option (SignedToken × SignedToken)
  deriving Repr, DecidableEq

/-- middleware isTokenExpiredError: a literal comparison of the error
text with "token is expired" or "Token is expired". -/
def isTokenExpiredError (e : String) : Bool :=
  e == "token is expired" || e == "Token is expired"

/-- Result of middleware attemptTokenRefresh, keeping the cookie write
that happens before the new access token is re-parsed. -/
structure RefreshAttempt where
  success : Bool
  cookiesSet : Option (SignedToken × SignedToken)
  identity : Option UserInfo
  deriving Repr, DecidableEq

/-- middleware attemptTokenRefresh: read the refresh cookie, call the
auth service's RefreshToken, write both new tokens to the cookies,
re-parse the new access token and attach the extracted identity. -/
def attemptTokenRefresh (store : UserStore) (cfg : JWTConfig) (now : Int)
    (req : AuthRequest) : RefreshAttempt :=
  match req.refreshCookie with
  | none => { success := false, cookiesSet := none, identity := none }
  | some rt =>
    match RefreshToken store cfg now rt with
    | .error _ => { success := false, cookiesSet := none, identity := none }
    | .ok resp =>
      let cookies := some (resp.accessToken, resp.refreshToken)
      match ParseAccessToken cfg resp.accessToken now with
      | .error _ => { success := false, cookiesSet := cookies, identity := none }
      | .ok claims =>
        match ExtractUserFromToken claims with
        | .error _ => { success := false, cookiesSet := cookies, identity := none }
        | .ok ui => { success := true, cookiesSet := cookies, identity := some ui }

/-- middleware RequireAuth: extract, validate as an access token,
attach the identity and proceed; on an error recognised as expiry,
attempt the transparent refresh; otherwise reject 401 with no
identity. -/
def RequireAuth (store : UserStore) (cfg : JWTConfig) (now : Int)
    (req : AuthRequest) : MwResult :=
  match req.token with
  | none => { status := 401, identity := none, cookiesSet := none }
  | some tok =>
    match ParseAccessToken cfg tok now with
    | .ok claims =>
      match ExtractUserFromToken claims with
      | .ok ui => { status := 200, identity := some ui, cookiesSet := none }
      | .error _ => { status := 401, identity := none, cookiesSet := none }
    | .error e =>
      if isTokenExpiredError e then
        let att := attemptTokenRefresh store cfg now req
        if att.success then { status := 200, identity := att.identity, cookiesSet := att.cookiesSet }
        else { status := 401, identity := none, cookiesSet := att.cookiesSet }
      else { status := 401, identity := none, cookiesSet := none }

/-! ## Role gates -/

/-- A value stored in the request context under the "role" key: set by
RequireAuth as a string; any other dynamic type fails the gate's type
assertion. -/
inductive CtxVal where
  | str (s : String)
  | nonString
  deriving Repr, DecidableEq

/-- middleware RequireRole: 401 when no role is attached, 500 when the
attached value is not a string, 403 when the role differs from the
required one, otherwise proceed. -/
def RequireRole (required : Role) (ctxRole : Option CtxVal) : Nat :=
  match ctxRole with
  | none => 401
  | some .nonString => 500
  | some (.str s) => if s ≠ required then 403 else 200

/-- middleware RequireAdmin: RequireRole with the admin role. -/
def RequireAdmin (ctxRole : Option CtxVal) : Nat :=
  RequireRole RoleAdmin ctxRole

/-- The model's deterministic password verifier, mirroring
bcrypt.CompareHashAndPassword against `bcryptHash`. -/
def modelVerifier : PasswordVerifier :=
  fun hash password => hash == bcryptHash password

/-! ## Helper lemmas -/

theorem jwtParse_ok_claims {tok : SignedToken} {secret : String} {now : Int}
    {c : MapClaims} (h : jwtParse tok secret now = .ok c) : c = tok.claims := by
  unfold jwtParse at h
  split at h
  · exact absurd h (by simp)
  · split at h
    · exact absurd h (by simp)
    · split at h
      · exact absurd h (by simp)
      · exact (Except.ok.inj h).symm

theorem parseToken_ok_typ {tok : SignedToken} {secret expectedType : String}
    {now : Int} {c : MapClaims}
    (h : parseToken tok secret expectedType now = .ok c) :
    tok.claims.typ = some expectedType := by
  unfold parseToken at h
  split at h
  · exact absurd h (by simp)
  · rename_i claims heq
    have hc : claims = tok.claims := jwtParse_ok_claims heq
    subst hc
    dsimp only at h
    split at h
    · rename_i hcond
      obtain ⟨hsome, hval⟩ := hcond
      obtain ⟨t, ht⟩ := Option.isSome_iff_exists.mp hsome
      rw [ht] at hval ⊢
      simp only [Option.getD_some] at hval
      rw [hval]
    · exact absurd h (by simp)

/-! ## Claims -/

/-- C2: a token issued with discriminator `access` never validates
where a `refresh` token is expected, and a token issued with
discriminator `refresh` never validates where an `access` token is
expected, for every configuration, user and pair of instants. -/
theorem tokenTypeConfusionRejected (cfg : JWTConfig) (user : User)
    (issuedAt now : Int) :
    (∃ e, ParseRefreshToken cfg (GenerateAccessToken cfg issuedAt user) now = Except.error e) ∧
    (∃ e, ParseAccessToken cfg (GenerateRefreshToken cfg issuedAt user) now = Except.error e) := by
  constructor
  · cases h : ParseRefreshToken cfg (GenerateAccessToken cfg issuedAt user) now with
    | error e => exact ⟨e, rfl⟩
    | ok c =>
      have ht : (GenerateAccessToken cfg issuedAt user).claims.typ = some "refresh" :=
        parseToken_ok_typ h
      simp [GenerateAccessToken] at ht
  · cases h : ParseAccessToken cfg (GenerateRefreshToken cfg issuedAt user) now with
    | error e => exact ⟨e, rfl⟩
    | ok c =>
      have ht : (GenerateRefreshToken cfg issuedAt user).claims.typ = some "access" :=
        parseToken_ok_typ h
      simp [GenerateRefreshToken] at ht

/-- A configuration whose access-token TTL is 30 minutes, not the
default 15. -/
def cfgThirty : JWTConfig :=
  { secretKey := "access-secret", refreshSecret := "refresh-secret"
    accessExpiry := 30, refreshExpiry := 1440 }

def bobUser : User :=
  { id := 7, username := "bob", password := bcryptHash "hunter2abc"
    firstName := "B", lastName := "O", role := "user", isActive := true }

/-- C3 counterexample: with the access TTL configured to 30 minutes, a
successful Login still reports `expiresIn = 15`, so the response does
not echo the configured TTL. -/
theorem expiresInConfigCounterexample :
    GetAccessTokenExpiry cfgThirty = 30 ∧
    (Login modelVerifier [bobUser] cfgThirty 0 "bob" "hunter2abc").map (fun r => r.expiresIn)
      = Except.ok 15 := by
  constructor
  · rfl
  · rfl

/-- C3 (amended): every successful Login and every successful
RefreshToken reports the literal `expiresIn = 15`, which equals the
configured access-token TTL only when that TTL is 15 minutes (the
default); the response does not consult the configuration. -/
theorem expiresInAlwaysFifteen (verify : PasswordVerifier) (store : UserStore)
    (cfg : JWTConfig) (now : Int) (username password : String)
    (rtok : SignedToken) :
    (∀ resp, Login verify store cfg now username password = .ok resp →
      resp.expiresIn = 15) ∧
    (∀ resp, RefreshToken store cfg now rtok = .ok resp →
      resp.expiresIn = 15) := by
  constructor
  · intro resp h
    unfold Login at h
    split at h
    · exact absurd h (by simp)
    · split at h
      · exact absurd h (by simp)
      · split at h
        · exact absurd h (by simp)
        · split at h
          · exact absurd h (by simp)
          · cases h
            rfl
  · intro resp h
    unfold RefreshToken at h
    split at h
    · exact absurd h (by simp)
    · split at h
      · exact absurd h (by simp)
      · split at h
        · exact absurd h (by simp)
        · split at h
          · exact absurd h (by simp)
          · cases h
            rfl

theorem expiresInAlwaysFifteen_witness :
    Login modelVerifier [bobUser] cfgThirty 0 "bob" "hunter2abc" =
      Except.ok { accessToken := GenerateAccessToken cfgThirty 0 bobUser
                  refreshToken := GenerateRefreshToken cfgThirty 0 bobUser
                  user := bobUser, expiresIn := 15 } ∧
    ({ accessToken := GenerateAccessToken cfgThirty 0 bobUser
       refreshToken := GenerateRefreshToken cfgThirty 0 bobUser
       user := bobUser, expiresIn := 15 } : LoginResponse).expiresIn = 15 :=
  ⟨by rfl,
   (expiresInAlwaysFifteen modelVerifier [bobUser] cfgThirty 0 "bob" "hunter2abc"
      (GenerateRefreshToken cfgThirty 0 bobUser)).1 _ (by rfl)⟩

/-- C5: a username absent from the store yields `InvalidCredentials`
for every password, and a wrong password on an active existing account
yields the same `InvalidCredentials`, so the two cases are
indistinguishable to the caller. -/
theorem loginUnknownUserCollapsed (verify : PasswordVerifier)
    (store : UserStore) (cfg : JWTConfig) (now : Int)
    (username password : String) :
    (getByUsername store username = none →
      Login verify store cfg now username password = .error .invalidCredentials) ∧
    (∀ u, getByUsername store username = some u → u.isActive = true →
      verify u.password password = false →
      Login verify store cfg now username password = .error .invalidCredentials) := by
  constructor
  · intro hnone
    unfold Login
    split
    · rfl
    · rw [hnone]
  · intro u hu hact hverify
    unfold Login
    split
    · rfl
    · rw [hu]
      simp [hact, hverify]

theorem loginUnknownUserCollapsed_witness :
    Login modelVerifier [bobUser] cfgThirty 0 "carol" "hunter2abc" =
      .error .invalidCredentials ∧
    Login modelVerifier [bobUser] cfgThirty 0 "bob" "wrong-password" =
      .error .invalidCredentials :=
  ⟨(loginUnknownUserCollapsed modelVerifier [bobUser] cfgThirty 0 "carol" "hunter2abc").1
      (by rfl),
   (loginUnknownUserCollapsed modelVerifier [bobUser] cfgThirty 0 "bob" "wrong-password").2
      bobUser (by rfl) (by rfl) (by rfl)⟩

/-- C6: once the stored account is inactive, RefreshToken on the
user's refresh token and ValidateToken on the user's access token both
fail with `UserDeactivated`, even though the tokens are correctly
signed and unexpired (not-before passed, expiry not reached). -/
theorem deactivationBlocksRefreshAndValidate (cfg : JWTConfig)
    (store : UserStore) (u uStored : User) (issuedAt now : Int)
    (hnbf : issuedAt ≤ now)
    (hrexp : now < issuedAt + cfg.refreshExpiry * 60)
    (haexp : now < issuedAt + cfg.accessExpiry * 60)
    (hfind : getByID store u.id = some uStored)
    (hinact : uStored.isActive = false) :
    RefreshToken store cfg now (GenerateRefreshToken cfg issuedAt u) =
      .error .userDeactivated ∧
    ValidateToken store cfg now (GenerateAccessToken cfg issuedAt u) =
      .error .userDeactivated := by
  have hr : ParseRefreshToken cfg (GenerateRefreshToken cfg issuedAt u) now =
      .ok (GenerateRefreshToken cfg issuedAt u).claims := by
    unfold ParseRefreshToken parseToken jwtParse validateClaims GenerateRefreshToken
    simp [Alg.isHMAC, not_le.mpr hrexp, not_lt.mpr hnbf]
  have ha : ParseAccessToken cfg (GenerateAccessToken cfg issuedAt u) now =
      .ok (GenerateAccessToken cfg issuedAt u).claims := by
    unfold ParseAccessToken parseToken jwtParse validateClaims GenerateAccessToken
    simp [Alg.isHMAC, not_le.mpr haexp, not_lt.mpr hnbf]
  constructor
  · unfold RefreshToken
    rw [hr]
    simp only [GenerateRefreshToken]
    rw [hfind]
    simp [hinact]
  · unfold ValidateToken
    rw [ha]
    simp only [GenerateAccessToken]
    rw [hfind]
    simp [hinact]

def victimActive : User :=
  { id := 3, username := "victim", password := bcryptHash "victimpass"
    firstName := "V", lastName := "T", role := "manager", isActive := true }

def victimDeactivated : User := { victimActive with isActive := false }

theorem deactivationBlocksRefreshAndValidate_witness :
    RefreshToken [victimDeactivated] cfgThirty 900
        (GenerateRefreshToken cfgThirty 0 victimActive) =
      .error .userDeactivated ∧
    ValidateToken [victimDeactivated] cfgThirty 900
        (GenerateAccessToken cfgThirty 0 victimActive) =
      .error .userDeactivated :=
  deactivationBlocksRefreshAndValidate cfgThirty [victimDeactivated]
    victimActive victimDeactivated 0 900
    (by decide) (by decide) (by decide) (by rfl) (by rfl)

/-- C7: a request carrying an expired access token whose refresh
cookie is absent, or whose refresh token the auth service rejects, is
answered 401 by RequireAuth with no identity attached and no cookies
written. -/
theorem expiredAccessWithoutValidRefreshRejected (store : UserStore)
    (cfg : JWTConfig) (u : User) (issuedAt now : Int)
    (rc : Option SignedToken)
    (hnbf : issuedAt ≤ now)
    (hexp : issuedAt + cfg.accessExpiry * 60 ≤ now)
    (_hrc : rc = none ∨ ∃ rt e, rc = some rt ∧ RefreshToken store cfg now rt = .error e) :
    RequireAuth store cfg now
        { token := some (GenerateAccessToken cfg issuedAt u), refreshCookie := rc } =
      { status := 401, identity := none, cookiesSet := none } := by
  have hp : ParseAccessToken cfg (GenerateAccessToken cfg issuedAt u) now =
      .error "token has invalid claims: token is expired" := by
    unfold ParseAccessToken parseToken jwtParse validateClaims GenerateAccessToken
    simp [Alg.isHMAC, hexp, not_lt.mpr hnbf]
    rfl
  unfold RequireAuth
  simp only []
  rw [hp]
  simp [isTokenExpiredError]

theorem expiredAccessWithoutValidRefreshRejected_witness :
    RequireAuth [bobUser] cfgThirty 2000
        { token := some (GenerateAccessToken cfgThirty 0 bobUser), refreshCookie := none } =
      { status := 401, identity := none, cookiesSet := none } :=
  expiredAccessWithoutValidRefreshRejected [bobUser] cfgThirty bobUser 0 2000 none
    (by decide) (by decide) (Or.inl rfl)

/-- Fixture for the middleware-renewal failing input: an active user
whose access token has expired while the refresh token is still
valid. -/
def cfgMw : JWTConfig :=
  { secretKey := "mw-access-secret", refreshSecret := "mw-refresh-secret"
    accessExpiry := 15, refreshExpiry := 1440 }

def aliceMw : User :=
  { id := 1, username := "alice", password := bcryptHash "alicepass1"
    firstName := "A", lastName := "L", role := "user", isActive := true }

def expiredAccessMw : SignedToken := GenerateAccessToken cfgMw 0 aliceMw

def validRefreshMw : SignedToken := GenerateRefreshToken cfgMw 0 aliceMw

/-- C1: at an input with an expired access token and a refresh token
the Auth Service itself accepts, RequireAuth nevertheless rejects 401,
attaches no identity and writes no cookies: the middleware compares
the parse error text with the v4-era strings "token is expired" /
"Token is expired", but the pinned golang-jwt/v5 reports
"token has invalid claims: token is expired", so the expiry branch and
the transparent renewal are never taken. -/
theorem staleExpiryCheckBlocksTransparentRenewal :
    (RefreshToken [aliceMw] cfgMw 1000 validRefreshMw).isOk = true ∧
    ParseAccessToken cfgMw expiredAccessMw 1000 =
      .error "token has invalid claims: token is expired" ∧
    isTokenExpiredError "token has invalid claims: token is expired" = false ∧
    RequireAuth [aliceMw] cfgMw 1000
        { token := some expiredAccessMw, refreshCookie := some validRefreshMw } =
      { status := 401, identity := none, cookiesSet := none } := by
  refine ⟨by rfl, by rfl, by rfl, by rfl⟩

/-- C8: with an authenticated identity attached, RequireAdmin rejects
403 exactly when the attached role differs from `admin` (so a
`manager` identity is rejected), admits the `admin` role, and is the
same gate as RequireRole(admin) on every context value. -/
theorem requireAdminAdmitsExactlyAdmin :
    (∀ s : String, s ≠ RoleAdmin → RequireAdmin (some (.str s)) = 403) ∧
    RequireAdmin (some (.str RoleAdmin)) = 200 ∧
    (∀ ctxRole, RequireAdmin ctxRole = RequireRole RoleAdmin ctxRole) := by
  refine ⟨?_, by rfl, fun _ => rfl⟩
  intro s hs
  simp [RequireAdmin, RequireRole, hs]

theorem requireAdminAdmitsExactlyAdmin_witness :
    RequireAdmin (some (.str "manager")) = 403 :=
  requireAdminAdmitsExactlyAdmin.1 "manager" (by decide)

theorem breakAtSpace_bearerChars (rest : List Char) :
    breakAtSpace ([ 'B', 'e', 'a', 'r', 'e', 'r', ' ' ] ++ rest) =
      ("Bearer".toList, some rest) := rfl

/-- A header whose first seven bytes are `"Bearer "` is parsed by the
middleware's SplitN check into the bearer credential after them. -/
theorem bearerFromHeader_of_take (h : String)
    (h7 : h.toList.take 7 = "Bearer ".toList) :
    bearerFromHeader h = some (String.mk (h.toList.drop 7)) := by
  have hlist : h.toList = [ 'B', 'e', 'a', 'r', 'e', 'r', ' ' ] ++ h.toList.drop 7 := by
    conv_lhs => rw [← List.take_append_drop 7 h.toList]
    rw [h7]
    rfl
  have hne : h ≠ "" := by
    intro he
    rw [he] at hlist
    simp at hlist
  unfold bearerFromHeader
  rw [if_neg hne, hlist, breakAtSpace_bearerChars]
  rfl

/-- C4: the middleware's token extraction prefers a well-formed bearer
Authorization header; only when the header yields no bearer credential
does it take a non-empty access-token cookie; and when the header
yields nothing and the cookie is absent or empty it fails with the
"no token found" error. -/
theorem extractTokenPrecedence (r : RequestCtx) :
    (∀ tok, bearerFromHeader r.authHeader = some tok → extractToken r = .ok tok) ∧
    (bearerFromHeader r.authHeader = none →
      ∀ tok, r.accessCookie = some tok → tok ≠ "" → extractToken r = .ok tok) ∧
    (bearerFromHeader r.authHeader = none →
      (r.accessCookie = none ∨ r.accessCookie = some "") →
      extractToken r = .error "no token found") := by
  refine ⟨?_, ?_, ?_⟩
  · intro tok hb
    unfold extractToken
    rw [hb]
  · intro hb tok hc htok
    unfold extractToken
    rw [hb]
    unfold GetTokenFromRequest
    rw [hc]
    simp [htok]
  · intro hb hc
    unfold extractToken
    rw [hb]
    unfold GetTokenFromRequest
    rcases hc with hc | hc
    · rw [hc]
      by_cases hh : r.authHeader = ""
      · rw [if_pos hh]
      · rw [if_neg hh]
        by_cases hcond : 7 < goLen r.authHeader ∧
            r.authHeader.toList.take 7 = "Bearer ".toList
        · exact absurd (bearerFromHeader_of_take r.authHeader hcond.2)
            (by rw [hb]; simp)
        · rw [if_neg hcond]
    · rw [hc]
      rfl

theorem extractTokenPrecedence_witness :
    extractToken { authHeader := "Bearer abc", accessCookie := some "cookie-token"
                   refreshCookie := none } = .ok "abc" ∧
    extractToken { authHeader := "", accessCookie := some "cookie-token"
                   refreshCookie := none } = .ok "cookie-token" ∧
    extractToken { authHeader := "Basic xyz", accessCookie := none
                   refreshCookie := none } = .error "no token found" :=
  ⟨(extractTokenPrecedence _).1 "abc" (by decide),
   (extractTokenPrecedence _).2.1 (by decide) "cookie-token" rfl (by decide),
   (extractTokenPrecedence _).2.2 (by decide) (Or.inl rfl)⟩

theorem goLen_append (a b : String) : goLen (a ++ b) = goLen a + goLen b := by
  cases a with
  | mk la =>
    cases b with
    | mk lb =>
      show (String.mk (la ++ lb)).utf8ByteSize = _
      simp [goLen]

theorem getDefaultRole_eq (r : Role) :
    getDefaultRole r =
      if r = RoleAdmin ∨ r = RoleManager ∨ r = RoleUser ∨ r = RoleGuest then r
      else RoleUser := by
  unfold getDefaultRole
  by_cases h : r = ""
  · subst h
    decide
  · rw [if_neg h]

/-- A registration request whose username has two characters but four
UTF-8 bytes. -/
def regTwoCharReq : RegisterRequest :=
  { username := "ая", password := "password1"
    firstName := "", lastName := "", role := "" }

/-- C9 counterexample: Go measures the username with byte length, so a
two-character, four-byte username passes the "at least 3" check and
Register succeeds instead of failing with `InvalidUsername`. -/
theorem registerByteLengthCounterexample :
    "ая".length < 3 ∧ goLen "ая" = 4 ∧
    (Register [] regTwoCharReq 1).isOk = true := by decide

/-- C9 (amended): with lengths measured in UTF-8 bytes (Go `len`) and
the checks applied in order, Register fails `InvalidUsername` on a
username under 3 bytes, then `PasswordTooShort` on a password under 8
bytes, then `UserAlreadyExists` when the username is taken, and
otherwise persists an active user carrying the requested role when it
is one of admin/manager/user/guest and `user` otherwise. -/
theorem registerValidatesByteLengths (store : UserStore)
    (req : RegisterRequest) (nextId : Nat) :
    (goLen req.username < 3 → Register store req nextId = .error .invalidUsername) ∧
    (3 ≤ goLen req.username → goLen req.password < 8 →
      Register store req nextId = .error .passwordTooShort) ∧
    (3 ≤ goLen req.username → 8 ≤ goLen req.password →
      ∀ u, getByUsername store req.username = some u →
        Register store req nextId = .error .userAlreadyExists) ∧
    (3 ≤ goLen req.username → 8 ≤ goLen req.password →
      getByUsername store req.username = none →
      ∃ user, Register store req nextId = .ok (user, store ++ [user]) ∧
        user.username = req.username ∧ user.isActive = true ∧
        user.role = (if req.role = RoleAdmin ∨ req.role = RoleManager ∨
            req.role = RoleUser ∨ req.role = RoleGuest then req.role else RoleUser)) := by
  have hu3 : 3 ≤ goLen req.username → ¬(req.username = "" ∨ goLen req.username < 3) := by
    intro h3
    rintro (he | hlt)
    · rw [he] at h3
      exact absurd h3 (by decide)
    · omega
  have hp8 : 8 ≤ goLen req.password → ¬(req.password = "" ∨ goLen req.password < 8) := by
    intro h8
    rintro (he | hlt)
    · rw [he] at h8
      exact absurd h8 (by decide)
    · omega
  refine ⟨?_, ?_, ?_, ?_⟩
  · intro hlt
    unfold Register validateRegistrationRequest
    rw [if_pos (Or.inr hlt)]
  · intro h3 hlt
    unfold Register validateRegistrationRequest
    rw [if_neg (hu3 h3), if_pos (Or.inr hlt)]
  · intro h3 h8 u hu
    unfold Register validateRegistrationRequest
    rw [if_neg (hu3 h3), if_neg (hp8 h8)]
    rw [hu]
  · intro h3 h8 hnone
    have hne : req.username ≠ "" := by
      intro he
      rw [he] at h3
      exact absurd h3 (by decide)
    have hhash : ¬ goLen (bcryptHash req.password) < 8 := by
      rw [bcryptHash, goLen_append]
      have h13 : goLen "bcrypt$2a$10$" = 13 := by decide
      omega
    refine ⟨{ id := nextId, username := req.username
              password := bcryptHash req.password
              firstName := req.firstName, lastName := req.lastName
              role := getDefaultRole req.role, isActive := true }, ?_, rfl, rfl, ?_⟩
    · unfold Register validateRegistrationRequest
      rw [if_neg (hu3 h3), if_neg (hp8 h8)]
      rw [hnone]
      unfold userValidate
      dsimp only
      rw [if_neg hne, if_neg hhash]
    · exact getDefaultRole_eq req.role

def guestReq : RegisterRequest :=
  { username := "guestuser", password := "longpassword"
    firstName := "G", lastName := "U", role := "guest" }

theorem registerValidatesByteLengths_witness :
    ∃ user, Register [] guestReq 1 = .ok (user, [] ++ [user]) ∧
      user.username = guestReq.username ∧ user.isActive = true ∧
      user.role = (if guestReq.role = RoleAdmin ∨ guestReq.role = RoleManager ∨
          guestReq.role = RoleUser ∨ guestReq.role = RoleGuest then guestReq.role
        else RoleUser) :=
  (registerValidatesByteLengths [] guestReq 1).2.2.2 (by decide) (by decide) rfl

def daveUser : User :=
  { id := 9, username := "dave", password := bcryptHash "davepasswd"
    firstName := "D", lastName := "E", role := "user", isActive := false }

/-- C10 counterexample: for a deactivated account, Login with the
empty password returns `InvalidCredentials`, not `UserDeactivated`:
the empty-input check precedes the lookup and the active-flag check. -/
theorem deactivatedLoginEmptyPasswordCounterexample :
    getByUsername [daveUser] "dave" = some daveUser ∧
    daveUser.isActive = false ∧
    Login modelVerifier [daveUser] cfgThirty 0 "dave" "" =
      .error .invalidCredentials ∧
    DomainError.invalidCredentials ≠ DomainError.userDeactivated :=
  ⟨rfl, rfl, rfl, by decide⟩

/-- C10 (amended): for a deactivated account with a non-empty
username, Login returns `UserDeactivated` for every non-empty supplied
password, correct or not, because the active-flag check precedes
password verification; an empty username or password instead triggers
the input check and yields `InvalidCredentials`. -/
theorem deactivatedLoginIgnoresPassword (verify : PasswordVerifier)
    (store : UserStore) (cfg : JWTConfig) (now : Int)
    (username password : String) (u : User)
    (hu : getByUsername store username = some u)
    (hinact : u.isActive = false)
    (hun : username ≠ "") (hpw : password ≠ "") :
    Login verify store cfg now username password = .error .userDeactivated := by
  unfold Login
  rw [if_neg (not_or.mpr ⟨hun, hpw⟩), hu]
  simp [hinact]

theorem deactivatedLoginIgnoresPassword_witness :
    Login modelVerifier [daveUser] cfgThirty 0 "dave" "totally-wrong" =
      .error .userDeactivated :=
  deactivatedLoginIgnoresPassword modelVerifier [daveUser] cfgThirty 0
    "dave" "totally-wrong" daveUser rfl rfl (by decide) (by decide)

end AdminPanel
